import Mathlib

set_option maxRecDepth 10000

/-!
# Verification of the security-intelligence pipeline

Shallow embedding, in Lean 4, of the core algorithms of the
ResponseReportGenerator repository: title-similarity deduplication
(`services/riskbrief/dedup.py`, `services/riskbrief/classifier.py`),
the TTL caches (`services/security_intel_cache.py`,
`services/mediastack/cache.py`), the structured-event provider
post-processing and trend computation
(`services/intel_providers/acled_provider.py`), the risk scorer and the
orchestrator (`services/security_intelligence_v2.py`).

Python dict-shaped records are embedded as structures carrying the fields
the embedded code reads; timestamps are embedded as integers (the
`isoformat`/`fromisoformat` round trip is the identity on them); Python
`float` confidences and ratios are embedded as rationals, which is exact
for the decimal literals and divisions the code performs.
-/

namespace SecIntel

/-! ## Title similarity (difflib.SequenceMatcher, `classifier.similarity`)

`similarity(a, b)` in `services/riskbrief/classifier.py` is
`SequenceMatcher(None, a.lower(), b.lower()).ratio()`.  For inputs shorter
than 200 characters no element is junk, and `ratio` is `2*M/T` where `T`
is the total length and `M` is the total size of the recursively chosen
matching blocks: each step picks the longest common contiguous block,
breaking ties towards the smallest start index in `a`, then in `b`, and
recurses on the parts left and right of the block. -/

/-- Length of the common prefix of two character lists: the length of the
matching run starting at a given pair of positions. -/
def runLen : List Char → List Char → Nat
  | x :: xs, y :: ys => if x = y then runLen xs ys + 1 else 0
  | _, _ => 0

/-- The longest matching block of two character lists, as
`(i, j, size)`: maximal `size`, ties broken towards the smallest `i`,
then the smallest `j` — the block `find_longest_match` of
`difflib.SequenceMatcher` returns on junk-free inputs. -/
def bestBlock (a b : List Char) : Nat × Nat × Nat :=
  (List.range (a.length + 1)).foldl (fun acc i =>
    (List.range (b.length + 1)).foldl (fun acc2 j =>
      let k := runLen (a.drop i) (b.drop j)
      if k > acc2.2.2 then (i, j, k) else acc2) acc)
    (0, 0, 0)

/-- Total size of the matching blocks chosen by the recursive
`get_matching_blocks` scheme: take the best block, recurse to its left
and to its right.  `fuel` bounds the recursion depth; `a.length +
b.length` always suffices because each recursive call strictly shrinks
the combined length. -/
def matchTotal : Nat → List Char → List Char → Nat
  | 0, _, _ => 0
  | fuel + 1, a, b =>
    let ijk := bestBlock a b
    let i := ijk.1
    let j := ijk.2.1
    let k := ijk.2.2
    if k = 0 then 0
    else
      k + matchTotal fuel (a.take i) (b.take j)
        + matchTotal fuel (a.drop (i + k)) (b.drop (j + k))

/-- `SequenceMatcher.ratio()`: `2*M/T`, and `1.0` when both sequences are
empty. -/
def ratioValue (a b : List Char) : ℚ :=
  if a.length + b.length = 0 then 1
  else (2 * matchTotal (a.length + b.length) a b : ℚ) / ((a.length + b.length : Nat) : ℚ)

/-- `str.lower()` on the characters of a string. -/
def lowerChars (s : String) : List Char :=
  s.data.map Char.toLower

/-- `classifier.similarity(a, b)`: the `SequenceMatcher` ratio of the
lowercased strings. -/
def similarity (a b : String) : ℚ :=
  ratioValue (lowerChars a) (lowerChars b)

/-! ## Deduplication (`services/riskbrief/dedup.py`) -/

/-- A Risk Brief event record, with the fields `deduplicate` reads.
`datetime` is `none` when the key is absent or `None` in the dict
(`e.get("datetime") or ""` maps both to `""`).  `k.update(e)` on records
that carry exactly these fields replaces every field of `k` with `e`. -/
structure RBEvent where
  title : String
  datetime : Option String
  category : String
  confidence : ℚ
  deriving DecidableEq

/-- Python string slicing `s[:n]`, by characters. -/
def strTake (s : String) (n : Nat) : String :=
  ⟨s.data.take n⟩

/-- The calendar-day key used by `deduplicate`:
`dt[:10] if len(dt) >= 10 else ""` applied to `e.get("datetime") or ""`. -/
def dayKey (e : RBEvent) : String :=
  if (e.datetime.getD "").length ≥ 10 then strTake (e.datetime.getD "") 10 else ""

/-- One pass of the inner loop of `deduplicate`: find the first kept
event matching the new event `e` (same day key, same category, title
similarity at least the threshold); on a match return the kept list with
that slot replaced by `e` when `e` has strictly higher confidence
(`k.update(e)`), otherwise kept unchanged; `none` when no kept event
matches. -/
def tryMerge (threshold : ℚ) (e : RBEvent) : List RBEvent → Option (List RBEvent)
  | [] => none
  | k :: ks =>
    if dayKey k = dayKey e ∧ k.category = e.category ∧
        similarity e.title k.title ≥ threshold then
      some ((if e.confidence > k.confidence then e else k) :: ks)
    else
      (tryMerge threshold e ks).map (k :: ·)

/-- The body of the outer loop of `deduplicate`: merge the event into the
kept list, or append it when no kept event matches. -/
def dedupStep (threshold : ℚ) (kept : List RBEvent) (e : RBEvent) : List RBEvent :=
  match tryMerge threshold e kept with
  | some kept2 => kept2
  | none => kept ++ [e]

/-- `deduplicate(events, title_threshold)` of
`services/riskbrief/dedup.py`: fold over the input, merging each event
into the first matching kept slot or appending it. -/
def deduplicate (threshold : ℚ) (events : List RBEvent) : List RBEvent :=
  events.foldl (dedupStep threshold) []

/-- The default `title_threshold` of `deduplicate`. -/
def titleThreshold : ℚ := 86 / 100

/-! ## Cache models

Two durable key-value caches exist in the repository:

* `SecurityIntelCache` (`services/security_intel_cache.py`): SQLite rows
  `(key, payload_json, fetched_at, expires_at)`; `get` checks expiry on
  read and deletes an expired row; `set` upserts.  It has no stale read.
* the mediastack cache (`services/mediastack/cache.py`): rows
  `(cache_key, data, created_at)`; `cache_get` checks `now - created_at`
  against a 6-hour TTL without deleting; `cache_get_stale` ignores the
  TTL.

Timestamps are embedded as integers measured in hours (the
`isoformat`/`fromisoformat` round trip is the identity); the JSON
`dumps`/`loads` round trip is the identity on the embedded payloads.
Payload dicts are association lists with scalar values; the nested
`_cache_info` metadata dict that `get` attaches is embedded as the
tagged value `PyVal.pyInfo fetched_at expires_at from_cache`. -/

/-- A scalar Python/JSON value, plus the `_cache_info` metadata record
attached by `SecurityIntelCache.get`. -/
inductive PyVal where
  | pyNone
  | pyBool (b : Bool)
  | pyInt (n : Int)
  | pyStr (s : String)
  | pyInfo (fetchedAt expiresAt : Int) (fromCache : Bool)
  deriving DecidableEq

/-- A Python dict, as an insertion-ordered association list with unique
keys. -/
abbrev PyDict := List (String × PyVal)

/-- `d.get(key)` on a dict. -/
def lookupKey (key : String) : PyDict → Option PyVal
  | [] => none
  | kv :: rest => if kv.1 = key then some kv.2 else lookupKey key rest

/-- `d.pop(key, None)`: the dict without the binding for `key`. -/
def removeKey (key : String) (d : PyDict) : PyDict :=
  d.filter (fun kv => kv.1 != key)

/-- `d[key] = v`: replace the binding in place if the key is present,
otherwise append it. -/
def setKey (key : String) (v : PyVal) : PyDict → PyDict
  | [] => [(key, v)]
  | kv :: rest => if kv.1 = key then (key, v) :: rest else kv :: setKey key v rest

/-- A row of the `intel_cache` table of `SecurityIntelCache`. -/
structure CacheEntry where
  payload : PyDict
  fetchedAt : Int
  expiresAt : Int
  deriving DecidableEq

/-- The `intel_cache` table, as a map from key to row. -/
def IntelStore := String → Option CacheEntry

/-- The table created by `_init_db`: no rows. -/
def emptyStore : IntelStore := fun _ => none

/-- `INSERT OR REPLACE` of one row. -/
def storeInsert (s : IntelStore) (key : String) (e : CacheEntry) : IntelStore :=
  fun k => if k = key then some e else s k

/-- `DELETE FROM intel_cache WHERE key = ?` (`SecurityIntelCache._delete`). -/
def storeErase (s : IntelStore) (key : String) : IntelStore :=
  fun k => if k = key then none else s k

/-- `SecurityIntelCache.DEFAULT_TTL_HOURS`. -/
def defaultTtlHours : Int := 12

/-- `SecurityIntelCache.get(key)` at time `now`: `None` on a missing
key; on an expired row, delete the row and return `None`; otherwise
return the payload with the `_cache_info` metadata key attached.
Returns the result together with the table left behind. -/
def cacheGet (s : IntelStore) (now : Int) (key : String) :
    Option PyDict × IntelStore :=
  match s key with
  | none => (none, s)
  | some e =>
    if now > e.expiresAt then (none, storeErase s key)
    else (some (setKey "_cache_info" (.pyInfo e.fetchedAt e.expiresAt true) e.payload), s)

/-- `SecurityIntelCache.set(key, data, ttl_hours)` at time `now`: strip
any `_cache_info` key from a copy of the data and upsert the row with
`expires_at = now + ttl`.  Returns the table and the `True` success
flag. -/
def cacheSet (s : IntelStore) (now ttlHours : Int) (key : String) (data : PyDict) :
    IntelStore × Bool :=
  (storeInsert s key ⟨removeKey "_cache_info" data, now, now + ttlHours⟩, true)

/-- `str.lower()`. -/
def lowerStr (s : String) : String :=
  ⟨lowerChars s⟩

/-- The `mediastack_cache` table: key to `(data, created_at)`. -/
def MsStore := String → Option (PyDict × Int)

/-- The mediastack table with no rows. -/
def msEmptyStore : MsStore := fun _ => none

/-- `mediastack.cache._make_key(city, country, window_days)`. -/
def msKey (city country : String) (windowDays : Nat) : String :=
  lowerStr city ++ ":" ++ lowerStr country ++ ":" ++ toString windowDays

/-- `mediastack.config.CACHE_TTL_HOURS`. -/
def msCacheTtlHours : Int := 6

/-- `mediastack.cache.cache_set` at time `now`. -/
def msCacheSet (s : MsStore) (now : Int) (city country : String) (windowDays : Nat)
    (data : PyDict) : MsStore :=
  fun k => if k = msKey city country windowDays then some (data, now) else s k

/-- `mediastack.cache.cache_get` at time `now`: `None` on a missing row
or one older than the TTL; the row itself is never deleted. -/
def msCacheGet (s : MsStore) (now : Int) (city country : String) (windowDays : Nat) :
    Option PyDict :=
  match s (msKey city country windowDays) with
  | none => none
  | some dc => if now - dc.2 > msCacheTtlHours then none else some dc.1

/-- `mediastack.cache.cache_get_stale`: the stored data regardless of
age. -/
def msCacheGetStale (s : MsStore) (city country : String) (windowDays : Nat) :
    Option PyDict :=
  match s (msKey city country windowDays) with
  | none => none
  | some dc => some dc.1

/-! ## The structured-event provider (`services/intel_providers/acled_provider.py`)

`ACLEDProvider.get_violent_incidents` post-processes the records of a
successful `_make_request`: city post-filter with country-level
fallback, fatality totals via `int(e.get('fatalities', 0) or 0)`,
record extraction, and the first/second-half trend.  Record fields are
embedded as the strings the API returns; the `fatalities` field keeps
its raw dict value because the code parses it with `int(...)`, which
raises `ValueError` on a non-numeric string — parsing is therefore
embedded as `Except`.  Event dates are embedded as absolute day
numbers: `some d` for a date string `strptime` accepts, `none` for one
it rejects, and `datetime.now()` / `timedelta` arithmetic acts on the
same day numbers. -/

/-- A Python exception escaping a function. -/
inductive PyErr where
  | valueError (msg : String)
  | typeError (msg : String)
  deriving DecidableEq

/-- Python truthiness of an embedded value (`x or 0` keeps `x` iff
truthy). -/
def pyTruthy : PyVal → Bool
  | .pyNone => false
  | .pyBool b => b
  | .pyInt n => n != 0
  | .pyStr s => s != ""
  | .pyInfo _ _ _ => true

/-- Whitespace-trim of a character list (`int` accepts surrounding
whitespace). -/
def trimChars (l : List Char) : List Char :=
  ((l.dropWhile Char.isWhitespace).reverse.dropWhile Char.isWhitespace).reverse

/-- Accumulate decimal digits; `none` on the first non-digit. -/
def digitsValCore : List Char → Nat → Option Nat
  | [], acc => some acc
  | c :: cs, acc =>
    if c.isDigit then digitsValCore cs (acc * 10 + (c.toNat - 48)) else none

/-- Python `int(s)` on a string: optional sign, decimal digits,
surrounding whitespace allowed; `none` when the literal is invalid. -/
def pyParseInt (s : String) : Option Int :=
  match trimChars s.data with
  | [] => none
  | '-' :: rest =>
    if rest.isEmpty then none else (digitsValCore rest 0).map (fun n => -(n : Int))
  | '+' :: rest =>
    if rest.isEmpty then none else (digitsValCore rest 0).map (fun n => (n : Int))
  | l => (digitsValCore l 0).map (fun n => (n : Int))

/-- Python `int(x)` on an embedded value: identity on ints, bools map to
0/1, strings are parsed (raising `ValueError` on a bad literal), other
values raise `TypeError`. -/
def pyToInt : PyVal → Except PyErr Int
  | .pyInt n => .ok n
  | .pyBool b => .ok (if b then 1 else 0)
  | .pyStr s =>
    match pyParseInt s with
    | some n => .ok n
    | none => .error (.valueError s)
  | .pyNone => .error (.typeError "int() argument must not be None")
  | .pyInfo _ _ _ => .error (.typeError "int() argument must be a number")

/-- `int(e.get('fatalities', 0) or 0)`: falsy values collapse to `0`
first, then `int(...)` is applied. -/
def fatalitiesInt (v : PyVal) : Except PyErr Int :=
  pyToInt (if pyTruthy v then v else .pyInt 0)

/-- One raw ACLED record, with the fields the provider reads. -/
structure AcledEvent where
  eventIdCnty : String := ""
  eventDate : Option Int := none
  eventType : String := ""
  subEventType : String := ""
  location : String := ""
  admin1 : String := ""
  admin2 : String := ""
  admin3 : String := ""
  fatalities : PyVal := .pyInt 0
  notes : String := ""
  source : String := ""
  sourceScale : String := ""
  latitude : String := ""
  longitude : String := ""
  actor1 : String := ""
  actor2 : String := ""
  deriving DecidableEq

/-- `needle` matches at the head of `hay`. -/
def subAt : List Char → List Char → Bool
  | [], _ => true
  | _ :: _, [] => false
  | n :: ns, h :: hs => n = h && subAt ns hs

/-- Contiguous-sublist test on characters. -/
def hasSub (needle : List Char) : List Char → Bool
  | [] => needle.isEmpty
  | h :: hs => subAt needle (h :: hs) || hasSub needle hs

/-- Python `needle in hay` on strings. -/
def strContains (hay needle : String) : Bool :=
  hasSub needle.data hay.data

/-- The city post-filter predicate of `get_violent_incidents`:
`city_lower in e.get('admin1','').lower() or ... admin2 ... admin3 ...
location ...`. -/
def cityMatches (cityLower : String) (e : AcledEvent) : Bool :=
  strContains (lowerStr e.admin1) cityLower ||
  strContains (lowerStr e.admin2) cityLower ||
  strContains (lowerStr e.admin3) cityLower ||
  strContains (lowerStr e.location) cityLower

/-- City filtering with country-level fallback: with a truthy city
filter, keep the city-matching records and scope `"City"`; when none
match, keep the full country-level set and mark the scope; with no city
filter the scope is `"Country"`. -/
def cityFilter (events : List AcledEvent) (city : Option String) :
    List AcledEvent × String :=
  match city with
  | none => (events, "Country")
  | some c =>
    if c = "" then (events, "Country")
    else
      if (events.filter (cityMatches (lowerStr c))).isEmpty then
        (events, "Country (city-level data not available)")
      else (events.filter (cityMatches (lowerStr c)), "City")

/-- First-half/second-half event counts of `_calculate_trend`: an event
dated on or after the midpoint counts into the second half, earlier ones
into the first; records whose date `strptime` rejects are skipped. -/
def countHalves (events : List AcledEvent) (mid : Int) : Nat × Nat :=
  events.foldl (fun fs e =>
    match e.eventDate with
    | none => fs
    | some d => if d ≥ mid then (fs.1, fs.2 + 1) else (fs.1 + 1, fs.2)) (0, 0)

/-- `ACLEDProvider._calculate_trend(events, days)` at time `now`: fewer
than two events is `'stable'`; otherwise compare the second-half count
to the first-half count at the midpoint `now - days // 2`. -/
def calculateTrend (events : List AcledEvent) (days : Nat) (now : Int) : String :=
  if events.length < 2 then "stable"
  else if (countHalves events (now - ((days / 2 : Nat) : Int))).1 = 0 then
    if (countHalves events (now - ((days / 2 : Nat) : Int))).2 > 0 then "increasing"
    else "stable"
  else if ((countHalves events (now - ((days / 2 : Nat) : Int))).2 : ℚ) /
      ((countHalves events (now - ((days / 2 : Nat) : Int))).1 : ℚ) > 13/10 then
    "increasing"
  else if ((countHalves events (now - ((days / 2 : Nat) : Int))).2 : ℚ) /
      ((countHalves events (now - ((days / 2 : Nat) : Int))).1 : ℚ) < 7/10 then
    "decreasing"
  else "stable"

/-- One entry of the `incidents` list the provider returns: field
copies, with `fatalities` parsed by `int(...)` and `notes` truncated to
200 characters (empty when falsy). -/
structure IncidentRecord where
  eventId : String
  date : Option Int
  eventType : String
  subEventType : String
  location : String
  admin1 : String
  admin2 : String
  fatalities : Int
  notes : String
  source : String
  sourceScale : String
  latitude : String
  longitude : String
  actor1 : String
  actor2 : String
  deriving DecidableEq

/-- Build one `IncidentRecord` from a raw event (raises through `Except`
on a bad `fatalities` literal). -/
def mkIncident (e : AcledEvent) : Except PyErr IncidentRecord := do
  let f ← fatalitiesInt e.fatalities
  .ok { eventId := e.eventIdCnty, date := e.eventDate, eventType := e.eventType,
        subEventType := e.subEventType, location := e.location, admin1 := e.admin1,
        admin2 := e.admin2, fatalities := f,
        notes := if e.notes ≠ "" then strTake e.notes 200 else "",
        source := e.source, sourceScale := e.sourceScale, latitude := e.latitude,
        longitude := e.longitude, actor1 := e.actor1, actor2 := e.actor2 }

/-- The success-path result of `get_violent_incidents`. -/
structure IncidentsResult where
  success : Bool
  incidents : List IncidentRecord
  totalIncidents : Nat
  totalFatalities : Int
  scope : String
  trend : String
  periodDays : Nat
  source : String
  deriving DecidableEq

/-- The post-request processing of `ACLEDProvider.get_violent_incidents`
on the data of a successful `_make_request`: city filter with
country-level fallback, fatality totals (summed with `int(...)` over
every kept record, before the 20-record extraction loop), record
extraction and trend.  A `ValueError` from `int(...)` escapes as
`.error` — nothing in the function catches it. -/
def getViolentIncidentsData (events : List AcledEvent) (city : Option String)
    (days : Nat) (now : Int) : Except PyErr IncidentsResult :=
  match (cityFilter events city).1.mapM (fun e => fatalitiesInt e.fatalities) with
  | .error err => .error err
  | .ok fs =>
    match ((cityFilter events city).1.take 20).mapM mkIncident with
    | .error err => .error err
    | .ok incs =>
      .ok { success := true, incidents := incs,
            totalIncidents := (cityFilter events city).1.length,
            totalFatalities := fs.foldl (· + ·) 0,
            scope := (cityFilter events city).2,
            trend := calculateTrend (cityFilter events city).1 days now,
            periodDays := days, source := "ACLED" }

/-! ## The risk scorer (`security_intelligence_v2.build_risk_assessment`)

The inputs are the result dicts of `get_violent_incidents` and
`get_demonstrations`; the scorer reads them with `.get(key, default)`,
so the embedded input structures carry exactly the fields read, with the
dict defaults as Lean default values. -/

/-- The fields `build_risk_assessment` reads from the incidents result. -/
structure IncidentsInput where
  totalIncidents : Int := 0
  totalFatalities : Int := 0
  trend : String := "unknown"
  source : String := "Unknown"
  success : Bool := false
  deriving DecidableEq

/-- The fields `build_risk_assessment` reads from the demonstrations
result. -/
structure DemosInput where
  totalCount : Int := 0
  riotsCount : Int := 0
  source : String := "Unknown"
  success : Bool := false
  deriving DecidableEq

/-- The additive point scale of `build_risk_assessment`: incident-volume
tier, fatality tier, demonstration tier, riot tier, trend adjustment. -/
def riskScoreOf (incidentCount fatalityCount demoCount riotsCount : Int)
    (trend : String) : Int :=
  (if incidentCount ≥ 50 then 40
   else if incidentCount ≥ 20 then 30
   else if incidentCount ≥ 5 then 20
   else if incidentCount ≥ 1 then 10 else 0) +
  (if fatalityCount ≥ 50 then 25
   else if fatalityCount ≥ 20 then 15
   else if fatalityCount ≥ 5 then 10
   else if fatalityCount ≥ 1 then 5 else 0) +
  (if demoCount ≥ 20 then 20
   else if demoCount ≥ 5 then 15
   else if demoCount ≥ 1 then 10 else 0) +
  (if riotsCount ≥ 5 then 15
   else if riotsCount ≥ 1 then 10 else 0) +
  (if trend = "increasing" then 10
   else if trend = "decreasing" then -5 else 0)

/-- The classification cascade of `build_risk_assessment`, returning
`(overall_risk, confidence, warnings)`. -/
def classificationOf (bothFailed hasAcled hasAnyData : Bool) (riskScore : Int) :
    String × String × List String :=
  if bothFailed then
    ("Unknown", "Low", ["Data sources unavailable - unable to assess risk"])
  else if !hasAcled && !hasAnyData then
    ("Unknown", "Low", ["Insufficient data coverage - risk cannot be determined"])
  else if riskScore ≥ 60 then
    ("High", if hasAcled then "High" else "Medium", [])
  else if riskScore ≥ 30 then
    ("Medium", if hasAcled then "High" else "Medium", [])
  else if hasAcled then ("Low", "High", [])
  else if hasAnyData then ("Low", "Medium", ["Low risk based on limited data sources"])
  else ("Unknown", "Low", ["No verified data available for this location"])

/-- Python `str.capitalize()`. -/
def pyCapitalize (s : String) : String :=
  match s.data with
  | [] => ""
  | c :: rest => ⟨c.toUpper :: rest.map Char.toLower⟩

/-- The drivers list of `build_risk_assessment`, before the cap at 3. -/
def driversOf (incidentCount fatalityCount demoCount riotsCount : Int)
    (trend : String) (overallRisk : String) : List String :=
  let base :=
    (if incidentCount > 0 then
      [toString incidentCount ++ " violent incident(s) recorded" ++
        (if fatalityCount > 0 then " with " ++ toString fatalityCount ++ " fatalities"
         else "") ++ " (past 30 days)"]
     else []) ++
    (if demoCount > 0 then
      [toString demoCount ++ " demonstration(s) recorded" ++
        (if riotsCount > 0 then " including " ++ toString riotsCount ++ " riot(s)"
         else "") ++ " (past 14 days)"]
     else []) ++
    (if trend = "increasing" ∨ trend = "decreasing" then
      ["Trend: " ++ pyCapitalize trend ++ " incident activity"]
     else [])
  if base.isEmpty then
    [if overallRisk = "Unknown" then "Insufficient data to identify threats"
     else "No significant security incidents recorded"]
  else base

/-- The operational-notes list of `build_risk_assessment`, before the
cap at 4. -/
def operationalNotesOf (fatalityCount demoCount riotsCount : Int)
    (trend : String) (overallRisk : String) : List String :=
  if overallRisk = "Unknown" then
    ["Exercise standard precautions - data coverage limited",
     "Consult local sources for current conditions"]
  else
    let l :=
      (if fatalityCount > 0 then
        ["Heightened awareness recommended, especially in evening hours"] else []) ++
      (if demoCount > 0 then
        ["Monitor local news for demonstration routes and timing"] ++
          (if riotsCount > 0 then ["Avoid areas with reported unrest"] else [])
       else []) ++
      (if trend = "increasing" then
        ["Security situation deteriorating - plan contingencies"] else [])
    if l.isEmpty then
      ["Standard security precautions recommended",
       "Keep emergency contacts readily available"]
    else l

/-- The assessment dict `build_risk_assessment` returns. -/
structure RiskAssessment where
  overallRisk : String
  riskScore : Int
  trend : String
  drivers : List String
  operationalNotes : List String
  confidence : String
  warnings : List String
  incidentsSource : String
  demosSource : String
  deriving DecidableEq

/-- `build_risk_assessment(incidents, demonstrations)`: deterministic
scoring, classification, drivers and notes. -/
def buildRiskAssessment (incidents : IncidentsInput) (demonstrations : DemosInput) :
    RiskAssessment :=
  let hasAcled := incidents.source == "ACLED" || demonstrations.source == "ACLED"
  let hasAnyData := incidents.totalIncidents > 0 || demonstrations.totalCount > 0
  let bothFailed := !incidents.success && !demonstrations.success
  let score := riskScoreOf incidents.totalIncidents incidents.totalFatalities
    demonstrations.totalCount demonstrations.riotsCount incidents.trend
  let cls := classificationOf bothFailed hasAcled hasAnyData score
  { overallRisk := cls.1, riskScore := score, trend := incidents.trend,
    drivers := (driversOf incidents.totalIncidents incidents.totalFatalities
      demonstrations.totalCount demonstrations.riotsCount incidents.trend cls.1).take 3,
    operationalNotes := (operationalNotesOf incidents.totalFatalities
      demonstrations.totalCount demonstrations.riotsCount incidents.trend cls.1).take 4,
    confidence := cls.2.1, warnings := cls.2.2,
    incidentsSource := incidents.source, demosSource := demonstrations.source }

/-! ## The orchestrator's network effects
(`security_intelligence_v2.get_full_security_intel`)

The claim about offline mode concerns which live network calls the
pipeline performs, so the orchestrator is embedded as a flow that
records every outbound HTTP request as a trace event; the external
world (ACLED credentials, provider success, article availability) is an
environment parameter, and the cache-lookup outcome a boolean.  The
ISO2 country conversion and the response-dict assembly perform no
network calls and are not traced; the per-section outcome records
whether the section was served from cache, produced the offline
no-cached-data record, or was fetched live. -/

/-- One outbound HTTP request of the pipeline.  `kind` distinguishes the
incidents, demonstrations and news-context fetches. -/
inductive NetCall where
  | geocode (city country : String)
  | acledFetch (kind : String)
  | mediastackFetch (kind : String)
  | gdeltFetch (kind : String)
  | rssFetch (kind : String)
  deriving DecidableEq

/-- The external-world outcomes the orchestrator's branches depend on. -/
structure IntelEnv where
  acledConfigured : Bool
  acledIncidentsSuccess : Bool
  acledDemosSuccess : Bool
  mediastackAvailable : Bool
  mediastackIncArticles : Bool
  mediastackDemoArticles : Bool
  mediastackNewsArticles : Bool
  deriving DecidableEq

/-- How one pipeline section was served. -/
inductive SectionOutcome where
  | cached
  | offlineNoData
  | live (source : String)
  deriving DecidableEq

/-- `_geocode_city` always issues one Nominatim request. -/
def geocodeCalls (city country : String) : List NetCall :=
  [.geocode city country]

/-- The news-source fallback of `_get_incidents_from_fallback` /
`_get_demos_from_fallback`: try MediaStack when available; when it is
unavailable or returns no articles, fetch GDELT and RSS. -/
def fallbackCalls (env : IntelEnv) (msArticles : Bool) (kind : String) :
    List NetCall :=
  (if env.mediastackAvailable then [.mediastackFetch kind] else []) ++
  (if env.mediastackAvailable && msArticles then []
   else [.gdeltFetch kind, .rssFetch kind])

/-- The source name the fallback reports. -/
def fallbackSource (env : IntelEnv) (msArticles : Bool) : String :=
  if env.mediastackAvailable && msArticles then "MediaStack" else "GDELT+RSS"

/-- `get_violent_incidents` / `get_demonstrations` as a flow: a fresh
cache hit short-circuits; otherwise offline mode returns the
`'Offline mode - no cached data available'` record without fetching;
otherwise ACLED is queried when configured, falling back to the news
sources on failure. -/
def sectionFlow (env : IntelEnv) (acledSuccess msArticles : Bool)
    (kind : String) (cacheHit useCache offlineMode : Bool) :
    SectionOutcome × List NetCall :=
  if useCache && cacheHit then (.cached, [])
  else if offlineMode then (.offlineNoData, [])
  else if env.acledConfigured then
    if acledSuccess then (.live "ACLED", [.acledFetch kind])
    else (.live (fallbackSource env msArticles),
      .acledFetch kind :: fallbackCalls env msArticles kind)
  else (.live (fallbackSource env msArticles), fallbackCalls env msArticles kind)

/-- The network calls of `_get_news_context`: a MediaStack query when
available (falling through to GDELT when it yields nothing), otherwise a
GDELT query. -/
def newsContextCalls (env : IntelEnv) : List NetCall :=
  if env.mediastackAvailable then
    .mediastackFetch "news" ::
      (if env.mediastackNewsArticles then [] else [.gdeltFetch "news"])
  else [.gdeltFetch "news"]

/-- `get_full_security_intel` as a flow: geocoding, then the incidents
and demonstrations sections, then the news context — each contributing
its network calls unconditionally of the offline flag except where the
section flow itself checks it. -/
def getFullSecurityIntelFlow (env : IntelEnv) (city country : String)
    (incCacheHit demoCacheHit useCache offlineMode : Bool) :
    (SectionOutcome × SectionOutcome) × List NetCall :=
  let inc := sectionFlow env env.acledIncidentsSuccess env.mediastackIncArticles
    "incidents" incCacheHit useCache offlineMode
  let dem := sectionFlow env env.acledDemosSuccess env.mediastackDemoArticles
    "demos" demoCacheHit useCache offlineMode
  ((inc.1, dem.1),
    geocodeCalls city country ++ inc.2 ++ dem.2 ++ newsContextCalls env)

/-! ### Concrete inputs used by witnesses and counterexamples -/

/-- A concrete matching pair for the witness of claim C5: same day key,
same category, titles that agree after lowercasing. -/
def wEvent1 : RBEvent := ⟨"march", some "2024-02-03", "PROTEST", 3/10⟩

/-- Higher-confidence duplicate of `wEvent1` (day key taken from a longer
ISO timestamp). -/
def wEvent2 : RBEvent := ⟨"March", some "2024-02-03T12:00", "PROTEST", 7/10⟩

/-- An event of a different category, for the second half of the witness
of claim C5. -/
def wEvent3 : RBEvent := ⟨"march", some "2024-02-03", "RIOT", 1/2⟩

/-- Titles for the counterexample to claim C9: `cTitleB` is similar to
`cTitleC` (ratio 0.9) but not to `cTitleA` (ratio 0.8), while `cTitleC`
is similar to `cTitleA` (ratio 0.9). -/
def cTitleA : String := "aaaaaaaaaa"

/-- See `cTitleA`. -/
def cTitleB : String := "aaaaaaaabb"

/-- See `cTitleA`. -/
def cTitleC : String := "aaaaaaaaab"

/-- Counterexample event: slot-establishing first event. -/
def cEventA : RBEvent := ⟨cTitleA, some "2024-01-01", "HOMICIDE", 1/2⟩

/-- Counterexample event: kept separately on the first pass. -/
def cEventB : RBEvent := ⟨cTitleB, some "2024-01-01", "HOMICIDE", 1/2⟩

/-- Counterexample event: higher-confidence duplicate of `cEventA` that
overwrites its slot, making the slot similar to `cEventB`. -/
def cEventC : RBEvent := ⟨cTitleC, some "2024-01-01", "HOMICIDE", 9/10⟩

/-- Two events dated in the second half (first half empty), for the
witness of the amended claim C6. -/
def trendEventsUp : List AcledEvent :=
  [{ eventDate := some 5 }, { eventDate := some 6 }]

/-- Two first-half events and one second-half event (ratio 0.5), for the
witness of the amended claim C6. -/
def trendEventsDown : List AcledEvent :=
  [{ eventDate := some 0 }, { eventDate := some 1 }, { eventDate := some 5 }]

/-- Twelve country-level records, none matching the city `"paris"`, for
the witness of claim C7. -/
def cityFallbackEvents : List AcledEvent :=
  List.replicate 12
    { eventDate := some 5, eventType := "Battles", location := "Elsewhere",
      admin1 := "Region", fatalities := PyVal.pyInt 1, source := "Src" }

/-- A record of a successful upstream response whose `fatalities` field
holds the non-numeric string `"N/A"`. -/
def badFatalEvent : AcledEvent :=
  { eventDate := some 5, eventType := "Battles", location := "Townsville",
    fatalities := PyVal.pyStr "N/A" }

/-! ### Evaluation lemmas for `similarity` and `deduplicate` -/

theorem ratioValue_eq (a b : List Char) (m t : Nat)
    (hm : matchTotal t a b = m) (ht : a.length + b.length = t) (h0 : t ≠ 0) :
    ratioValue a b = (2 * m : ℚ) / (t : ℚ) := by
  unfold ratioValue
  rw [ht, hm, if_neg h0]

theorem tryMerge_nil (th : ℚ) (e : RBEvent) : tryMerge th e [] = none := rfl

theorem tryMerge_cons_pos (th : ℚ) (e k : RBEvent) (ks : List RBEvent)
    (h : dayKey k = dayKey e ∧ k.category = e.category ∧
      similarity e.title k.title ≥ th) :
    tryMerge th e (k :: ks) =
      some ((if e.confidence > k.confidence then e else k) :: ks) := by
  rw [tryMerge, if_pos h]

theorem tryMerge_cons_neg (th : ℚ) (e k : RBEvent) (ks : List RBEvent)
    (h : ¬(dayKey k = dayKey e ∧ k.category = e.category ∧
      similarity e.title k.title ≥ th)) :
    tryMerge th e (k :: ks) = (tryMerge th e ks).map (k :: ·) := by
  rw [tryMerge, if_neg h]

theorem dedupStep_merge {th : ℚ} {kept kept2 : List RBEvent} {e : RBEvent}
    (h : tryMerge th e kept = some kept2) : dedupStep th kept e = kept2 := by
  unfold dedupStep
  rw [h]

theorem dedupStep_append {th : ℚ} {kept : List RBEvent} {e : RBEvent}
    (h : tryMerge th e kept = none) : dedupStep th kept e = kept ++ [e] := by
  unfold dedupStep
  rw [h]

theorem tryMerge_length {th : ℚ} {e : RBEvent} :
    ∀ {ks ks2 : List RBEvent}, tryMerge th e ks = some ks2 →
      ks2.length = ks.length := by
  intro ks
  induction ks with
  | nil => intro ks2 h; exact absurd h (by simp [tryMerge])
  | cons k kt ih =>
    intro ks2 h
    rw [tryMerge] at h
    split at h
    · cases h
      simp
    · match hr : tryMerge th e kt with
      | none => rw [hr] at h; cases h
      | some l2 =>
        rw [hr] at h
        cases h
        simp [ih hr]

theorem dedupStep_length_le (th : ℚ) (kept : List RBEvent) (e : RBEvent) :
    (dedupStep th kept e).length ≤ kept.length + 1 := by
  unfold dedupStep
  match hr : tryMerge th e kept with
  | none => simp
  | some l2 => simp [tryMerge_length hr]

theorem foldl_dedupStep_length_le (th : ℚ) :
    ∀ (l : List RBEvent) (kept : List RBEvent),
      (List.foldl (dedupStep th) kept l).length ≤ kept.length + l.length := by
  intro l
  induction l with
  | nil => intro kept; simp
  | cons e es ih =>
    intro kept
    calc (List.foldl (dedupStep th) (dedupStep th kept e) es).length
        ≤ (dedupStep th kept e).length + es.length := ih _
      _ ≤ kept.length + 1 + es.length :=
          Nat.add_le_add_right (dedupStep_length_le th kept e) _
      _ = kept.length + (es.length + 1) := by omega
      _ = kept.length + (e :: es).length := by simp

theorem deduplicate_length_le (th : ℚ) (l : List RBEvent) :
    (deduplicate th l).length ≤ l.length := by
  have h := foldl_dedupStep_length_le th l []
  simpa [deduplicate] using h

/-! ## Settled claims about `deduplicate` -/

/-- Claim C5: for a pair of events with the same calendar day, the same
category, and title similarity at least 0.86 (as the code measures it,
new event's title first), `deduplicate` keeps exactly one event whose
confidence is the larger of the two; a pair with distinct categories or
distinct days is preserved unchanged. -/
theorem deduplicate_pair_spec (e1 e2 : RBEvent) :
    (dayKey e1 = dayKey e2 → e1.category = e2.category →
      similarity e2.title e1.title ≥ titleThreshold →
      ∃ k, deduplicate titleThreshold [e1, e2] = [k] ∧
        k.confidence = max e1.confidence e2.confidence) ∧
    (e1.category ≠ e2.category ∨ dayKey e1 ≠ dayKey e2 →
      deduplicate titleThreshold [e1, e2] = [e1, e2]) := by
  constructor
  · intro h1 h2 h3
    unfold deduplicate
    rw [List.foldl_cons, dedupStep_append (tryMerge_nil _ _), List.nil_append,
      List.foldl_cons, dedupStep_merge (tryMerge_cons_pos _ _ _ _ ⟨h1, h2, h3⟩),
      List.foldl_nil]
    refine ⟨if e2.confidence > e1.confidence then e2 else e1, rfl, ?_⟩
    by_cases hc : e2.confidence > e1.confidence
    · rw [if_pos hc, max_eq_right (le_of_lt hc)]
    · rw [if_neg hc, max_eq_left (not_lt.mp hc)]
  · intro h
    have hno : ¬(dayKey e1 = dayKey e2 ∧ e1.category = e2.category ∧
        similarity e2.title e1.title ≥ titleThreshold) := by
      intro hc
      rcases h with h | h
      · exact h hc.2.1
      · exact h hc.1
    unfold deduplicate
    rw [List.foldl_cons, dedupStep_append (tryMerge_nil _ _), List.nil_append,
      List.foldl_cons,
      dedupStep_append (by rw [tryMerge_cons_neg _ _ _ _ hno, tryMerge_nil]; rfl),
      List.foldl_nil, List.singleton_append]

/-- Witness for claim C5, at the concrete pairs above. -/
theorem deduplicate_pair_spec_witness :
    (∃ k, deduplicate titleThreshold [wEvent1, wEvent2] = [k] ∧
      k.confidence = max wEvent1.confidence wEvent2.confidence) ∧
    deduplicate titleThreshold [wEvent1, wEvent3] = [wEvent1, wEvent3] := by
  have hsim : similarity wEvent2.title wEvent1.title = 1 := by
    unfold similarity
    rw [ratioValue_eq _ _ 5 10 (by decide) (by decide) (by decide)]
    norm_num
  refine ⟨(deduplicate_pair_spec wEvent1 wEvent2).1 (by decide) (by decide) ?_,
    (deduplicate_pair_spec wEvent1 wEvent3).2 (Or.inl (by decide))⟩
  rw [hsim]
  norm_num [titleThreshold]

theorem sim_cBA : similarity cTitleB cTitleA = 4/5 := by
  unfold similarity
  rw [ratioValue_eq _ _ 8 20 (by decide) (by decide) (by decide)]
  norm_num

theorem sim_cCA : similarity cTitleC cTitleA = 9/10 := by
  unfold similarity
  rw [ratioValue_eq _ _ 9 20 (by decide) (by decide) (by decide)]
  norm_num

theorem sim_cBC : similarity cTitleB cTitleC = 9/10 := by
  unfold similarity
  rw [ratioValue_eq _ _ 9 20 (by decide) (by decide) (by decide)]
  norm_num

theorem dedup_cex_once :
    deduplicate titleThreshold [cEventA, cEventB, cEventC] = [cEventC, cEventB] := by
  have s2 : tryMerge titleThreshold cEventB [cEventA] = none := by
    rw [tryMerge_cons_neg, tryMerge_nil]
    · rfl
    · intro h
      have hs : similarity cEventB.title cEventA.title ≥ titleThreshold := h.2.2
      rw [show cEventB.title = cTitleB from rfl, show cEventA.title = cTitleA from rfl,
        sim_cBA] at hs
      norm_num [titleThreshold] at hs
  have s3 : tryMerge titleThreshold cEventC [cEventA, cEventB] = some [cEventC, cEventB] := by
    rw [tryMerge_cons_pos]
    · rw [if_pos (by norm_num [cEventA, cEventC])]
    · refine ⟨by decide, by decide, ?_⟩
      rw [show cEventC.title = cTitleC from rfl, show cEventA.title = cTitleA from rfl,
        sim_cCA]
      norm_num [titleThreshold]
  unfold deduplicate
  rw [List.foldl_cons, dedupStep_append (tryMerge_nil _ _), List.nil_append,
    List.foldl_cons, dedupStep_append s2, List.singleton_append,
    List.foldl_cons, dedupStep_merge s3, List.foldl_nil]

theorem dedup_cex_twice :
    deduplicate titleThreshold [cEventC, cEventB] = [cEventC] := by
  have s4 : tryMerge titleThreshold cEventB [cEventC] = some [cEventC] := by
    rw [tryMerge_cons_pos]
    · rw [if_neg (by norm_num [cEventB, cEventC])]
    · refine ⟨by decide, by decide, ?_⟩
      rw [show cEventB.title = cTitleB from rfl, show cEventC.title = cTitleC from rfl,
        sim_cBC]
      norm_num [titleThreshold]
  unfold deduplicate
  rw [List.foldl_cons, dedupStep_append (tryMerge_nil _ _), List.nil_append,
    List.foldl_cons, dedupStep_merge s4, List.foldl_nil]

/-- Counterexample to claim C9 as stated: on this three-event list a
second application of `deduplicate` merges two events the first
application kept separate, so `deduplicate` is not idempotent. -/
theorem deduplicate_not_idempotent :
    deduplicate titleThreshold (deduplicate titleThreshold [cEventA, cEventB, cEventC]) ≠
      deduplicate titleThreshold [cEventA, cEventB, cEventC] := by
  rw [dedup_cex_once, dedup_cex_twice]
  intro h
  exact absurd (congrArg List.length h) (by decide)

/-- Claim C9, amended: a second application of `deduplicate` never keeps
more events than the first (idempotence itself fails, see the
counterexample: a merge can overwrite a kept title and make it similar
to a later kept event). -/
theorem deduplicate_twice_length_le (th : ℚ) (l : List RBEvent) :
    (deduplicate th (deduplicate th l)).length ≤ (deduplicate th l).length :=
  deduplicate_length_le th (deduplicate th l)

/-! ## Settled claims about the caches -/

theorem removeKey_eq_self {key : String} :
    ∀ {d : PyDict}, lookupKey key d = none → removeKey key d = d := by
  intro d
  induction d with
  | nil => intro _; rfl
  | cons kv rest ih =>
    intro h
    rw [lookupKey] at h
    split at h
    · cases h
    · rename_i hne
      have hb : (kv.1 != key) = true := by simpa using hne
      simp only [removeKey, List.filter_cons, hb, if_true]
      rw [show List.filter (fun kv => kv.1 != key) rest = removeKey key rest from rfl,
        ih h]

theorem setKey_eq_append {key : String} {v : PyVal} :
    ∀ {d : PyDict}, lookupKey key d = none → setKey key v d = d ++ [(key, v)] := by
  intro d
  induction d with
  | nil => intro _; rfl
  | cons kv rest ih =>
    intro h
    rw [lookupKey] at h
    split at h
    · cases h
    · rename_i hne
      rw [setKey, if_neg hne, ih h]
      rfl

theorem storeInsert_self (s : IntelStore) (key : String) (e : CacheEntry) :
    storeInsert s key e key = some e := by
  simp [storeInsert]

theorem cacheSet_store (s : IntelStore) (now ttl : Int) (key : String) (data : PyDict) :
    (cacheSet s now ttl key data).1 =
      storeInsert s key ⟨removeKey "_cache_info" data, now, now + ttl⟩ := rfl

theorem msCacheSet_self (ms : MsStore) (t0 : Int) (city country : String) (w : Nat)
    (data : PyDict) :
    msCacheSet ms t0 city country w data (msKey city country w) = some (data, t0) := by
  simp [msCacheSet]

/-- Counterexample to claim C1 as stated: after `set` at time 0 with the
default 12-hour TTL, the row is physically present, but the first `get`
at time 13 both returns `None` and deletes the row — the expired row
does not remain in the store after a read, and no stale read of the
payload is possible afterwards (`SecurityIntelCache` has no
`get_stale`). -/
theorem intelCache_read_deletes_expired_row :
    (((cacheSet emptyStore 0 defaultTtlHours "k" [("a", PyVal.pyInt 1)]).1) "k").isSome = true ∧
    (cacheGet ((cacheSet emptyStore 0 defaultTtlHours "k" [("a", PyVal.pyInt 1)]).1) 13 "k").1 = none ∧
    ((cacheGet ((cacheSet emptyStore 0 defaultTtlHours "k" [("a", PyVal.pyInt 1)]).1) 13 "k").2) "k" = none := by
  decide

/-- Claim C1, amended: TTL expiry is checked only on read and there is
no background sweep.  In `SecurityIntelCache` an expired row remains
physically present until it is overwritten, purged, or read: the first
`get` past the TTL returns `None` and itself deletes the row.  The
mediastack cache's `cache_get` leaves the expired row in place, and its
`cache_get_stale` still returns the stored payload after the TTL. -/
theorem cache_expiry_checked_on_read (s : IntelStore) (ms : MsStore)
    (key city country : String) (w : Nat) (data msData : PyDict) (t0 ttl t1 : Int)
    (h : t1 > t0 + ttl) (hms : t1 - t0 > msCacheTtlHours) :
    ((cacheSet s t0 ttl key data).1) key =
      some ⟨removeKey "_cache_info" data, t0, t0 + ttl⟩ ∧
    (cacheGet ((cacheSet s t0 ttl key data).1) t1 key).1 = none ∧
    ((cacheGet ((cacheSet s t0 ttl key data).1) t1 key).2) key = none ∧
    msCacheGet (msCacheSet ms t0 city country w msData) t1 city country w = none ∧
    msCacheGetStale (msCacheSet ms t0 city country w msData) city country w = some msData := by
  have hrow := storeInsert_self s key ⟨removeKey "_cache_info" data, t0, t0 + ttl⟩
  refine ⟨by rw [cacheSet_store, hrow], ?_, ?_, ?_, ?_⟩
  · rw [cacheSet_store]
    unfold cacheGet
    simp only [hrow]
    rw [if_pos h]
  · rw [cacheSet_store]
    unfold cacheGet
    simp only [hrow]
    rw [if_pos h]
    simp [storeErase]
  · unfold msCacheGet
    simp only [msCacheSet_self]
    rw [if_pos hms]
  · unfold msCacheGetStale
    simp only [msCacheSet_self]

/-- Witness for the amended claim C1, at concrete stores and times
(TTL 12, read at hour 13; mediastack TTL 6, read 13 hours after the
write). -/
theorem cache_expiry_checked_on_read_witness :
    ((cacheSet emptyStore 0 12 "k" [("a", PyVal.pyInt 1)]).1) "k" =
      some ⟨[("a", PyVal.pyInt 1)], 0, 12⟩ ∧
    (cacheGet ((cacheSet emptyStore 0 12 "k" [("a", PyVal.pyInt 1)]).1) 13 "k").1 = none ∧
    ((cacheGet ((cacheSet emptyStore 0 12 "k" [("a", PyVal.pyInt 1)]).1) 13 "k").2) "k" = none ∧
    msCacheGet (msCacheSet msEmptyStore 0 "Paris" "FR" 14 [("b", PyVal.pyInt 2)]) 13 "Paris" "FR" 14 = none ∧
    msCacheGetStale (msCacheSet msEmptyStore 0 "Paris" "FR" 14 [("b", PyVal.pyInt 2)]) "Paris" "FR" 14 =
      some [("b", PyVal.pyInt 2)] := by
  have h := cache_expiry_checked_on_read emptyStore msEmptyStore "k" "Paris" "FR" 14
    [("a", PyVal.pyInt 1)] [("b", PyVal.pyInt 2)] 0 12 13 (by decide) (by decide)
  simpa using h

/-- Counterexample to claim C8 as stated: `get` immediately after `set`
does not return the payload unchanged — it attaches a `_cache_info`
metadata key. -/
theorem intelCache_get_adds_cache_info :
    (cacheGet ((cacheSet emptyStore 0 defaultTtlHours "k" [("a", PyVal.pyInt 1)]).1) 0 "k").1 ≠
      some [("a", PyVal.pyInt 1)] := by
  decide

/-- Claim C8, amended: for a payload carrying no `_cache_info` key,
`set(key, payload)` followed by `get(key)` within the TTL returns the
payload's own entries unchanged with one appended `_cache_info`
metadata entry, and `get(key)` after the TTL has elapsed returns
`None`. -/
theorem cache_round_trip (s : IntelStore) (key : String) (data : PyDict)
    (t0 ttl t1 : Int) (hinfo : lookupKey "_cache_info" data = none) :
    (t1 ≤ t0 + ttl →
      (cacheGet ((cacheSet s t0 ttl key data).1) t1 key).1 =
        some (data ++ [("_cache_info", PyVal.pyInfo t0 (t0 + ttl) true)])) ∧
    (t1 > t0 + ttl →
      (cacheGet ((cacheSet s t0 ttl key data).1) t1 key).1 = none) := by
  have hrow := storeInsert_self s key ⟨removeKey "_cache_info" data, t0, t0 + ttl⟩
  constructor
  · intro h
    rw [cacheSet_store]
    unfold cacheGet
    simp only [hrow]
    rw [if_neg (not_lt.mpr h)]
    simp only [removeKey_eq_self hinfo, setKey_eq_append hinfo]
  · intro h
    rw [cacheSet_store]
    unfold cacheGet
    simp only [hrow]
    rw [if_pos h]

/-! ## Settled claims about the structured-event provider -/

/-- Counterexample to claim C6 as stated: a query result holding a
single event dated in the second half of the window has a first-half
count of 0 and a second-half count of 1, so the claim demands
`"increasing"`, yet `_calculate_trend` returns `"stable"`: lists with
fewer than two events short-circuit before the halves are compared. -/
theorem calculateTrend_single_event_stable :
    countHalves [({ eventDate := some 5 } : AcledEvent)]
      ((10 : Int) - ((14 / 2 : Nat) : Int)) = (0, 1) ∧
    calculateTrend [({ eventDate := some 5 } : AcledEvent)] 14 10 = "stable" := by
  decide

/-- Claim C6, amended: for query results with at least two events, the
trend is `"increasing"` when the second-half/first-half ratio exceeds
1.3, `"decreasing"` below 0.7, and `"stable"` otherwise, with the
zero-first-half rule as claimed; results with fewer than two events are
always `"stable"` (see the counterexample). -/
theorem calculateTrend_spec (events : List AcledEvent) (days : Nat) (now : Int)
    (f s : Nat) (h2 : 2 ≤ events.length)
    (hfs : countHalves events (now - ((days / 2 : Nat) : Int)) = (f, s)) :
    (f = 0 → calculateTrend events days now =
      (if s > 0 then "increasing" else "stable")) ∧
    (f ≠ 0 →
      ((s : ℚ) / (f : ℚ) > 13/10 → calculateTrend events days now = "increasing") ∧
      ((s : ℚ) / (f : ℚ) < 7/10 → calculateTrend events days now = "decreasing") ∧
      (7/10 ≤ (s : ℚ) / (f : ℚ) → (s : ℚ) / (f : ℚ) ≤ 13/10 →
        calculateTrend events days now = "stable")) := by
  have hn : ¬ events.length < 2 := not_lt.mpr h2
  unfold calculateTrend
  rw [if_neg hn, hfs]
  constructor
  · intro h0
    rw [if_pos h0]
  · intro h0
    refine ⟨?_, ?_, ?_⟩
    · intro hgt
      rw [if_neg h0, if_pos hgt]
    · intro hlt
      have h13 : ¬ (s : ℚ) / (f : ℚ) > 13/10 :=
        not_lt.mpr (le_of_lt (lt_trans hlt (by norm_num)))
      rw [if_neg h0, if_neg h13, if_pos hlt]
    · intro hge hle
      rw [if_neg h0, if_neg (not_lt.mpr hle), if_neg (not_lt.mpr hge)]

/-- Witness for the amended claim C6, over a 14-day window read at day
10 (midpoint day 3). -/
theorem calculateTrend_spec_witness :
    calculateTrend trendEventsUp 14 10 = "increasing" ∧
    calculateTrend trendEventsDown 14 10 = "decreasing" := by
  constructor
  · have h := (calculateTrend_spec trendEventsUp 14 10 0 2 (by decide) (by decide)).1 rfl
    simpa using h
  · exact ((calculateTrend_spec trendEventsDown 14 10 2 1 (by decide)
      (by decide)).2 (by decide)).2.1 (by norm_num)

/-- Claim C7: when a truthy city filter matches no record of the
country-level query, the provider returns the full country-level set
(`total_incidents` is the full record count) and the scope string
`"Country (city-level data not available)"`. -/
theorem getViolentIncidents_city_fallback (events : List AcledEvent) (c : String)
    (days : Nat) (now : Int) (r : IncidentsResult) (hc : c ≠ "")
    (hmatch : events.filter (cityMatches (lowerStr c)) = [])
    (hr : getViolentIncidentsData events (some c) days now = .ok r) :
    r.scope = "Country (city-level data not available)" ∧
    r.totalIncidents = events.length := by
  have hcf : cityFilter events (some c) =
      (events, "Country (city-level data not available)") := by
    simp only [cityFilter]
    rw [if_neg hc, hmatch]
    simp
  unfold getViolentIncidentsData at hr
  rw [hcf] at hr
  simp only at hr
  cases hm1 : events.mapM (fun e => fatalitiesInt e.fatalities) with
  | error e => rw [hm1] at hr; cases hr
  | ok fs =>
    rw [hm1] at hr
    cases hm2 : (events.take 20).mapM mkIncident with
    | error e => rw [hm2] at hr; cases hr
    | ok incs =>
      rw [hm2] at hr
      cases hr
      exact ⟨rfl, rfl⟩

/-- Witness for claim C7: the twelve-record country query with an
unmatched city filter yields scope
`"Country (city-level data not available)"` and `total_incidents = 12`. -/
theorem getViolentIncidents_city_fallback_witness :
    ∃ r, getViolentIncidentsData cityFallbackEvents (some "paris") 30 10 =
        Except.ok r ∧
      r.scope = "Country (city-level data not available)" ∧
      r.totalIncidents = 12 := by
  cases hres : getViolentIncidentsData cityFallbackEvents (some "paris") 30 10 with
  | error e =>
    have hok : (getViolentIncidentsData cityFallbackEvents (some "paris") 30 10).isOk
        = true := by decide
    rw [hres] at hok
    simp [Except.isOk, Except.toBool] at hok
  | ok r =>
    have h := getViolentIncidents_city_fallback cityFallbackEvents "paris" 30 10 r
      (by decide) (by decide) hres
    exact ⟨r, rfl, h.1, by rw [h.2]; decide⟩

/-- Claim C4, at the failing input: on a successful response containing
a record with a non-numeric `fatalities` value,
`get_violent_incidents`'s post-processing raises `ValueError` out of
`int('N/A')` past the adapter boundary instead of returning a
`success: false` record — nothing between the `int(...)` call and the
caller catches it. -/
theorem acled_nonnumeric_fatalities_raises :
    getViolentIncidentsData [badFatalEvent] none 30 10 =
      Except.error (PyErr.valueError "N/A") := rfl

/-! ## Settled claims about the risk scorer -/

/-- With all counts zero the score is just the trend adjustment, below
every classification threshold. -/
theorem riskScoreOf_zero_counts_lt (t : String) : riskScoreOf 0 0 0 0 t < 30 := by
  unfold riskScoreOf
  norm_num
  split_ifs <;> norm_num

/-- Counterexample to claim C2 as stated: both results succeeded with
zero incidents, fatalities, demonstrations and riots, but neither
source is the primary structured provider — the returned level is
`"Unknown"`, not `"Low"`. -/
theorem risk_empty_success_without_acled_unknown :
    (buildRiskAssessment
      { totalIncidents := 0, totalFatalities := 0, trend := "unknown",
        source := "GDELT+RSS", success := true }
      { totalCount := 0, riotsCount := 0, source := "GDELT+RSS",
        success := true }).overallRisk = "Unknown" ∧
    (buildRiskAssessment
      { totalIncidents := 0, totalFatalities := 0, trend := "unknown",
        source := "GDELT+RSS", success := true }
      { totalCount := 0, riotsCount := 0, source := "GDELT+RSS",
        success := true }).confidence = "Low" := by
  decide

/-- Claim C2, amended: when both results report success with zero
incidents, fatalities, demonstrations and riots, the level is `"Low"`
(confidence `"High"`) when at least one result's source is the primary
structured provider `ACLED`; when neither is, the scorer returns
`"Unknown"` with confidence `"Low"` (the spec's own "no data at all
from any source ⇒ Unknown"). -/
theorem risk_empty_success_spec (inc : IncidentsInput) (dem : DemosInput)
    (hs1 : inc.success = true) (hs2 : dem.success = true)
    (h0 : inc.totalIncidents = 0) (hf : inc.totalFatalities = 0)
    (hd : dem.totalCount = 0) (hrc : dem.riotsCount = 0) :
    ((inc.source = "ACLED" ∨ dem.source = "ACLED") →
      (buildRiskAssessment inc dem).overallRisk = "Low" ∧
      (buildRiskAssessment inc dem).confidence = "High") ∧
    (inc.source ≠ "ACLED" → dem.source ≠ "ACLED" →
      (buildRiskAssessment inc dem).overallRisk = "Unknown" ∧
      (buildRiskAssessment inc dem).confidence = "Low") := by
  have hscore := riskScoreOf_zero_counts_lt inc.trend
  have h60 : ¬ riskScoreOf 0 0 0 0 inc.trend ≥ 60 := by omega
  have h30 : ¬ riskScoreOf 0 0 0 0 inc.trend ≥ 30 := by omega
  constructor
  · intro h
    have ha : (inc.source == "ACLED" || dem.source == "ACLED") = true := by
      rcases h with h | h <;> simp [h]
    simp [buildRiskAssessment, classificationOf, ha, h0, hf, hd, hrc, hs1, hs2,
      h60, h30]
  · intro h1 h2
    have ha : (inc.source == "ACLED" || dem.source == "ACLED") = false := by
      simp [h1, h2]
    simp [buildRiskAssessment, classificationOf, ha, h0, hf, hd, hrc, hs1, hs2]

/-- Witness for the amended claim C2: empty successful results from
ACLED give `"Low"`/`"High"`; empty successful news-based results give
`"Unknown"`/`"Low"`. -/
theorem risk_empty_success_spec_witness :
    ((buildRiskAssessment
      { totalIncidents := 0, totalFatalities := 0, trend := "unknown",
        source := "ACLED", success := true }
      { totalCount := 0, riotsCount := 0, source := "ACLED",
        success := true }).overallRisk = "Low" ∧
    (buildRiskAssessment
      { totalIncidents := 0, totalFatalities := 0, trend := "unknown",
        source := "ACLED", success := true }
      { totalCount := 0, riotsCount := 0, source := "ACLED",
        success := true }).confidence = "High") ∧
    ((buildRiskAssessment
      { totalIncidents := 0, totalFatalities := 0, trend := "unknown",
        source := "GDELT+RSS", success := true }
      { totalCount := 0, riotsCount := 0, source := "GDELT+RSS",
        success := true }).overallRisk = "Unknown" ∧
    (buildRiskAssessment
      { totalIncidents := 0, totalFatalities := 0, trend := "unknown",
        source := "GDELT+RSS", success := true }
      { totalCount := 0, riotsCount := 0, source := "GDELT+RSS",
        success := true }).confidence = "Low") :=
  ⟨(risk_empty_success_spec _ _ rfl rfl rfl rfl rfl rfl).1 (Or.inl rfl),
   (risk_empty_success_spec _ _ rfl rfl rfl rfl rfl rfl).2
     (by decide) (by decide)⟩

/-- Counterexample to claim C10 as stated: with `incident_count=60`,
`fatality_count=55`, `trend="increasing"` and no demonstrations or
riots, the score is 75, but when both results report failure the level
is `"Unknown"`, not `"High"` — the `both_failed` branch precedes the
score thresholds. -/
theorem risk_75_both_failed_unknown :
    (buildRiskAssessment
      { totalIncidents := 60, totalFatalities := 55, trend := "increasing",
        source := "Unknown", success := false }
      { totalCount := 0, riotsCount := 0, source := "Unknown",
        success := false }).riskScore = 75 ∧
    (buildRiskAssessment
      { totalIncidents := 60, totalFatalities := 55, trend := "increasing",
        source := "Unknown", success := false }
      { totalCount := 0, riotsCount := 0, source := "Unknown",
        success := false }).overallRisk = "Unknown" := by
  decide

/-- Claim C10, amended: with `incident_count=60`, `fatality_count=55`,
`trend="increasing"` and no demonstrations or riots, the risk score is
40+25+10 = 75, and the level is `"High"` provided at least one of the
two results reports success (when both fail, the `both_failed` branch
returns `"Unknown"` despite the score — see the counterexample). -/
theorem risk_75_is_high (inc : IncidentsInput) (dem : DemosInput)
    (h60 : inc.totalIncidents = 60) (h55 : inc.totalFatalities = 55)
    (htr : inc.trend = "increasing") (hd0 : dem.totalCount = 0)
    (hr0 : dem.riotsCount = 0)
    (hsucc : inc.success = true ∨ dem.success = true) :
    (buildRiskAssessment inc dem).riskScore = 75 ∧
    (buildRiskAssessment inc dem).overallRisk = "High" := by
  have hbf : (!inc.success && !dem.success) = false := by
    rcases hsucc with h | h <;> simp [h]
  have hscore : riskScoreOf 60 55 0 0 "increasing" = 75 := by decide
  constructor
  · simp [buildRiskAssessment, h60, h55, htr, hd0, hr0, hscore]
  · by_cases ha : (inc.source == "ACLED" || dem.source == "ACLED") = true
    · simp [buildRiskAssessment, classificationOf, h60, h55, htr, hd0, hr0,
        hscore, hbf, ha]
    · rw [Bool.not_eq_true] at ha
      simp [buildRiskAssessment, classificationOf, h60, h55, htr, hd0, hr0,
        hscore, hbf, ha]

/-- Witness for the amended claim C10, at a concrete successful
incidents result. -/
theorem risk_75_is_high_witness :
    (buildRiskAssessment
      { totalIncidents := 60, totalFatalities := 55, trend := "increasing",
        source := "ACLED", success := true }
      { totalCount := 0, riotsCount := 0, source := "ACLED",
        success := true }).riskScore = 75 ∧
    (buildRiskAssessment
      { totalIncidents := 60, totalFatalities := 55, trend := "increasing",
        source := "ACLED", success := true }
      { totalCount := 0, riotsCount := 0, source := "ACLED",
        success := true }).overallRisk = "High" :=
  risk_75_is_high _ _ rfl rfl rfl rfl rfl (Or.inl rfl)

/-! ## The offline-mode claim -/

/-- Claim C3, at the failing inputs: with offline mode on and a cold
cache, both the incidents and demonstrations sections return the
offline no-cached-data record without fetching, yet the pipeline still
performs live network calls — the Nominatim geocoding request and at
least one news-context request (MediaStack or GDELT) are issued
unconditionally. -/
theorem offline_mode_still_calls_network (env : IntelEnv) (city country : String) :
    (getFullSecurityIntelFlow env city country false false true true).1 =
      (SectionOutcome.offlineNoData, SectionOutcome.offlineNoData) ∧
    (getFullSecurityIntelFlow env city country false false true true).2 =
      NetCall.geocode city country :: newsContextCalls env ∧
    newsContextCalls env ≠ [] := by
  refine ⟨?_, ?_, ?_⟩
  · simp [getFullSecurityIntelFlow, sectionFlow]
  · simp [getFullSecurityIntelFlow, sectionFlow, geocodeCalls]
  · cases hms : env.mediastackAvailable <;> simp [newsContextCalls, hms]

/-- Witness for the amended claim C8: a fresh read at the write time
returns the payload plus metadata; a read at hour 13 against the
default 12-hour TTL returns `None`. -/
theorem cache_round_trip_witness :
    (cacheGet ((cacheSet emptyStore 0 12 "k" [("a", PyVal.pyInt 1)]).1) 0 "k").1 =
      some [("a", PyVal.pyInt 1), ("_cache_info", PyVal.pyInfo 0 12 true)] ∧
    (cacheGet ((cacheSet emptyStore 0 12 "k" [("a", PyVal.pyInt 1)]).1) 13 "k").1 = none := by
  refine ⟨?_, ?_⟩
  · have h := (cache_round_trip emptyStore "k" [("a", PyVal.pyInt 1)] 0 12 0 (by decide)).1
      (by decide)
    simpa using h
  · exact (cache_round_trip emptyStore "k" [("a", PyVal.pyInt 1)] 0 12 13 (by decide)).2
      (by decide)

end SecIntel
